import Mathlib

/-!
Shallow embedding of `.github/scripts/quality-gate.py` (the repository's only
source file): a CI helper that aggregates SAST / SCA / DAST vulnerability
counts, compares the per-severity totals against zero thresholds, writes a
JSON summary and exits 0 on pass, 1 otherwise.

Modelling conventions:
* Python integers are `Int` (arbitrary precision, no overflow).
* JSON values are the inductive `Json`; JSON numbers are modelled as
  integers (the inputs of this program are counts; no claim involves
  floating point).
* A file's content is a `FileContent`: either `text raw` (arbitrary bytes
  that are not a valid JSON document) or `jsonDoc raw j` (bytes `raw` whose
  `json.load` decoding is `j`).  The byte-level JSON grammar itself is not
  re-implemented; `asJson` returns the decoded document directly.
* The filesystem is an association list from paths to contents.
* Fallible Python code (AttributeError / TypeError / ValueError paths that
  `except Exception` blocks catch, and the fatal path of `main`) is modelled
  with `Except Unit`.
-/

/-! ## Python string primitives: `str.strip` and `int(str)` -/

/-- The whitespace characters stripped by Python's `str.strip()` (the ASCII
ones; exotic unicode whitespace is out of scope for count files). -/
def isPyWs (c : Char) : Bool :=
  c == ' ' || c == '\t' || c == '\n' || c == '\r' || c == '\x0b' || c == '\x0c'

/-- `str.strip()` on a list of characters: drop whitespace on both ends. -/
def stripChars (l : List Char) : List Char :=
  ((l.dropWhile isPyWs).reverse.dropWhile isPyWs).reverse

/-- Value of a decimal digit list, most significant digit first. -/
def digitsToNat (l : List Char) : Nat :=
  l.foldl (fun a c => 10 * a + (c.toNat - 48)) 0

/-- Parse a nonempty all-digit character list; `none` otherwise. -/
def natOfDigits (l : List Char) : Option Nat :=
  if l = [] then none
  else if l.all Char.isDigit then some (digitsToNat l) else none

/-- Python `int(s)` on an already-stripped character list: an optional sign
followed by a nonempty digit string.  (Python additionally accepts single
underscores between digits and unicode digits; no input in this development
uses either, so they are not modelled.) -/
def pyIntOfStripped (l : List Char) : Option Int :=
  match l with
  | [] => none
  | c :: rest =>
    if c = '+' then (natOfDigits rest).map Int.ofNat
    else if c = '-' then (natOfDigits rest).map (fun m => -(m : Int))
    else (natOfDigits (c :: rest)).map Int.ofNat

/-- Python `int(s)` on a string: strip, then parse. -/
def pyIntParse (s : String) : Option Int :=
  pyIntOfStripped (stripChars s.data)

/-! ## Decimal rendering of integers (used to build stringified inputs) -/

/-- Decimal digits of `n`, least significant first. -/
def natToRevDigits (n : Nat) : List Char :=
  if h : n < 10 then [Nat.digitChar n]
  else Nat.digitChar (n % 10) :: natToRevDigits (n / 10)
decreasing_by
  exact Nat.div_lt_self (by omega) (by omega)

/-- Decimal digits of `n`, most significant first. -/
def natDigits (n : Nat) : List Char :=
  (natToRevDigits n).reverse

/-- Decimal string of a natural number. -/
def natToStr (n : Nat) : String :=
  String.mk (natDigits n)

/-- Decimal string of an integer. -/
def intToStr (n : Int) : String :=
  if n < 0 then "-" ++ natToStr n.natAbs else natToStr n.natAbs

/-! ## JSON documents, file contents, the filesystem -/

/-- A decoded JSON document (numbers restricted to integers, see header). -/
inductive Json where
  | null : Json
  | bool : Bool → Json
  | num : Int → Json
  | str : String → Json
  | arr : List Json → Json
  | obj : List (String × Json) → Json

/-- Content of one file.  `text raw` holds bytes that do not form a valid
JSON document; `jsonDoc raw j` holds bytes `raw` whose `json.load` result is
`j` (the decoding is recorded rather than re-parsed from the bytes). -/
inductive FileContent where
  | text : String → FileContent
  | jsonDoc : String → Json → FileContent

/-- The raw bytes, as read by `open(...).read()`. -/
def FileContent.asText : FileContent → String
  | .text s => s
  | .jsonDoc raw _ => raw

/-- `json.load` on the file: the decoded document, or `none` on a
`json.JSONDecodeError`. -/
def FileContent.asJson : FileContent → Option Json
  | .text _ => none
  | .jsonDoc _ j => some j

/-- The filesystem: an association list from relative paths to contents
(first binding wins, matching `List.lookup`). -/
def FS := List (String × FileContent)

/-- Read a file: `none` models `FileNotFoundError`. -/
def FS.read (fs : FS) (p : String) : Option FileContent :=
  List.lookup p fs

/-- `os.path.exists`. -/
def FS.exists (fs : FS) (p : String) : Bool :=
  (fs.read p).isSome

/-- Add or overwrite one file. -/
def FS.set (fs : FS) (p : String) (c : FileContent) : FS :=
  (p, c) :: fs

/-! ## Python dict / value operations on JSON -/

/-- `d.get(k, default)`: succeeds on a dict (missing key gives the default),
raises `AttributeError` (modelled as `Except.error`) on any non-dict. -/
def pyGet (j : Json) (k : String) (d : Json) : Except Unit Json :=
  match j with
  | .obj l => .ok ((l.lookup k).getD d)
  | _ => .error ()

/-- Adding a JSON value to a Python int: ints add, bools count as 0/1
(Python `bool` is an `int` subclass), anything else raises `TypeError`. -/
def jsonAddable : Json → Except Unit Int
  | .num n => .ok n
  | .bool b => .ok (if b then 1 else 0)
  | _ => .error ()

/-- Python `int(x)` on a JSON value: ints and bools convert, strings are
parsed (`ValueError` on failure), everything else raises `TypeError`. -/
def riskToInt : Json → Except Unit Int
  | .num n => .ok n
  | .bool b => .ok (if b then 1 else 0)
  | .str s =>
    match pyIntParse s with
    | some n => .ok n
    | none => .error ()
  | _ => .error ()

/-! ## The three report parsers (`parse_semgrep_results`,
`parse_npm_audit_results`, `parse_zap_results`) and `read_count` -/

/-- `read_count(filepath, default=0)`: read, strip, `int(...)` if nonempty;
every failure (missing file, `ValueError`, anything else) returns the
default. -/
def read_count (c : Option FileContent) (d : Int) : Int :=
  match c with
  | none => d
  | some fc =>
    match stripChars fc.asText.data with
    | [] => d
    | content =>
      match pyIntOfStripped content with
      | some n => n
      | none => d

/-- Body of `parse_semgrep_results`'s `try` block after `json.load`: count
`results` entries whose `extra.severity` is `"ERROR"` (critical) or
`"WARNING"` (high).  The source runs two generator sums over the same list;
one fold computing both counts is extensionally identical (an exception in
the first sum aborts the whole block either way). -/
def semgrepStep (acc : Int × Int) (r : Json) : Except Unit (Int × Int) := do
  let extra ← pyGet r "extra" (.obj [])
  let sev ← pyGet extra "severity" .null
  pure (if sev matches .str "ERROR" then acc.1 + 1 else acc.1,
        if sev matches .str "WARNING" then acc.2 + 1 else acc.2)

/-- `try` body of `parse_semgrep_results`.  Iterating a non-list `results`
either raises (`TypeError` / `AttributeError` on the elements) or visits no
dict element; every such case ends in the zero-count fallback, so non-array
values are sent to `error` wholesale. -/
def parse_semgrep_core (data : Json) : Except Unit (Int × Int) := do
  let results ← pyGet data "results" (.arr [])
  match results with
  | .arr rs => rs.foldlM semgrepStep (0, 0)
  | _ => .error ()

/-- `parse_semgrep_results(filepath)`: returns the (critical, high) pair,
with `{'critical': 0, 'high': 0}` on any exception. -/
def parse_semgrep_results (c : Option FileContent) : Int × Int :=
  match c with
  | none => (0, 0)
  | some fc =>
    match fc.asJson with
    | none => (0, 0)
    | some data =>
      match parse_semgrep_core data with
      | .ok p => p
      | .error _ => (0, 0)

/-- The four values of `metadata.vulnerabilities` as returned by
`parse_npm_audit_results` — RAW JSON values: the source forwards
`metadata.get('critical', 0)` et al. verbatim, without checking that they
are integers. -/
structure NpmRaw where
  critical : Json
  high : Json
  medium : Json
  low : Json

/-- `try` body of `parse_npm_audit_results`: drill into
`metadata.vulnerabilities` and return the four fields (`moderate` feeds
`medium`), each defaulting to `0` when absent. -/
def parse_npm_core (data : Json) : Except Unit NpmRaw := do
  let md ← pyGet data "metadata" (.obj [])
  let vulns ← pyGet md "vulnerabilities" (.obj [])
  let c ← pyGet vulns "critical" (.num 0)
  let h ← pyGet vulns "high" (.num 0)
  let m ← pyGet vulns "moderate" (.num 0)
  let l ← pyGet vulns "low" (.num 0)
  pure ⟨c, h, m, l⟩

/-- `parse_npm_audit_results(filepath)`: raw field values, all `0` on any
exception. -/
def parse_npm_audit_results (c : Option FileContent) : NpmRaw :=
  match c with
  | none => ⟨.num 0, .num 0, .num 0, .num 0⟩
  | some fc =>
    match fc.asJson with
    | none => ⟨.num 0, .num 0, .num 0, .num 0⟩
    | some data =>
      match parse_npm_core data with
      | .ok r => r
      | .error _ => ⟨.num 0, .num 0, .num 0, .num 0⟩

/-- One severity-counts record (critical, high, medium, low). -/
structure Counts4 where
  critical : Int
  high : Int
  medium : Int
  low : Int
deriving DecidableEq

/-- One alert of the ZAP report: `int(alert.get('riskcode', 0))`, then bump
the bucket selected by the risk code (3/2/1/0); other codes change
nothing. -/
def zapAlertStep (acc : Counts4) (alert : Json) : Except Unit Counts4 := do
  let rc ← pyGet alert "riskcode" (.num 0)
  let r ← riskToInt rc
  pure (if r = 3 then { acc with critical := acc.critical + 1 }
        else if r = 2 then { acc with high := acc.high + 1 }
        else if r = 1 then { acc with medium := acc.medium + 1 }
        else if r = 0 then { acc with low := acc.low + 1 }
        else acc)

/-- One site of the ZAP report: fold its `alerts` list. -/
def zapSiteStep (acc : Counts4) (site : Json) : Except Unit Counts4 := do
  let alerts ← pyGet site "alerts" (.arr [])
  match alerts with
  | .arr l => l.foldlM zapAlertStep acc
  | _ => .error ()

/-- `try` body of `parse_zap_results`: fold all alerts of all sites starting
from zero counts. -/
def parse_zap_core (data : Json) : Except Unit Counts4 := do
  let sites ← pyGet data "site" (.arr [])
  match sites with
  | .arr l => l.foldlM zapSiteStep ⟨0, 0, 0, 0⟩
  | _ => .error ()

/-- `parse_zap_results(filepath)`: accumulated counts, all zero on any
exception. -/
def parse_zap_results (c : Option FileContent) : Counts4 :=
  match c with
  | none => ⟨0, 0, 0, 0⟩
  | some fc =>
    match fc.asJson with
    | none => ⟨0, 0, 0, 0⟩
    | some data =>
      match parse_zap_core data with
      | .ok r => r
      | .error _ => ⟨0, 0, 0, 0⟩

/-! ## `main`: input resolution, aggregation, gate evaluation -/

def sastCriticalTxt : String := "sast-results/sast-critical.txt"
def sastHighTxt : String := "sast-results/sast-high.txt"
def semgrepJson : String := "sast-results/semgrep-results.json"
def scaCriticalTxt : String := "sca-results/sca-critical.txt"
def scaHighTxt : String := "sca-results/sca-high.txt"
def scaMediumTxt : String := "sca-results/sca-medium.txt"
def scaLowTxt : String := "sca-results/sca-low.txt"
def dastCriticalTxt : String := "dast-results/dast-critical.txt"
def dastHighTxt : String := "dast-results/dast-high.txt"
def dastMediumTxt : String := "dast-results/dast-medium.txt"
def dastLowTxt : String := "dast-results/dast-low.txt"

/-- Lines 120-127: the SAST block of `main`.  The branch is chosen by the
existence of `sast-critical.txt` alone. -/
def resolveSast (fs : FS) : Int × Int :=
  if fs.exists sastCriticalTxt then
    (read_count (fs.read sastCriticalTxt) 0, read_count (fs.read sastHighTxt) 0)
  else if fs.exists semgrepJson then
    parse_semgrep_results (fs.read semgrepJson)
  else (0, 0)

/-- Lines 129-140: the SCA block.  The plain-text branch wraps the read
counts as JSON numbers so that both branches, like the Python variables,
carry the raw values forwarded by `parse_npm_audit_results`. -/
def resolveSca (fs : FS) : NpmRaw :=
  if fs.exists scaCriticalTxt then
    ⟨.num (read_count (fs.read scaCriticalTxt) 0),
     .num (read_count (fs.read scaHighTxt) 0),
     .num (read_count (fs.read scaMediumTxt) 0),
     .num (read_count (fs.read scaLowTxt) 0)⟩
  else if fs.exists "sca-results/npm-audit-results.json" then
    parse_npm_audit_results (fs.read "sca-results/npm-audit-results.json")
  else ⟨.num 0, .num 0, .num 0, .num 0⟩

/-- Lines 142-153: the DAST block. -/
def resolveDast (fs : FS) : Counts4 :=
  if fs.exists dastCriticalTxt then
    ⟨read_count (fs.read dastCriticalTxt) 0,
     read_count (fs.read dastHighTxt) 0,
     read_count (fs.read dastMediumTxt) 0,
     read_count (fs.read dastLowTxt) 0⟩
  else if fs.exists "dast-results/zap-report.json" then
    parse_zap_results (fs.read "dast-results/zap-report.json")
  else ⟨0, 0, 0, 0⟩

/-- Lines 175-180: the hardcoded zero-tolerance thresholds. -/
def thresholds : Counts4 := ⟨0, 0, 0, 0⟩

/-- Line 194's f-string. -/
def criticalMsg (n : Int) : String :=
  "Critical vulnerabilities: " ++ toString n ++ " exceeds threshold of "
    ++ toString thresholds.critical

/-- Line 197's f-string. -/
def highMsg (n : Int) : String :=
  "High vulnerabilities: " ++ toString n ++ " exceeds threshold of "
    ++ toString thresholds.high

/-- Line 200's f-string. -/
def mediumMsg (n : Int) : String :=
  "Medium vulnerabilities: " ++ toString n ++ " exceeds threshold of "
    ++ toString thresholds.medium

/-- Line 203's f-string. -/
def lowMsg (n : Int) : String :=
  "Low vulnerabilities: " ++ toString n ++ " exceeds threshold of "
    ++ toString thresholds.low

/-- Lines 191-203: append one message per severity whose total strictly
exceeds its threshold, in the fixed order critical, high, medium, low. -/
def computeFailures (tc th tm tl : Int) : List String :=
  let failures : List String := []
  let failures := if tc > thresholds.critical then failures ++ [criticalMsg tc] else failures
  let failures := if th > thresholds.high then failures ++ [highMsg th] else failures
  let failures := if tm > thresholds.medium then failures ++ [mediumMsg tm] else failures
  let failures := if tl > thresholds.low then failures ++ [lowMsg tl] else failures
  failures

/-- The summary object of lines 206-233 (the persisted `GateSummary`). -/
structure Summary where
  total_critical : Int
  total_high : Int
  total_medium : Int
  total_low : Int
  total : Int
  sast : Counts4
  sca : Counts4
  dast : Counts4
  thresholds : Counts4
  passed : Bool
  failures : List String
deriving DecidableEq

/-- Lines 156-159 and 206-233 once all ten per-category counts are plain
integers: totals, failures and the summary record.  `sast` medium/low are
the literal zeros of lines 215-216. -/
def mkSummary (sastCritical sastHigh scaCritical scaHigh scaMedium scaLow : Int)
    (dast : Counts4) : Summary :=
  let total_critical := sastCritical + scaCritical + dast.critical
  let total_high := sastHigh + scaHigh + dast.high
  let total_medium := scaMedium + dast.medium
  let total_low := scaLow + dast.low
  let failures := computeFailures total_critical total_high total_medium total_low
  { total_critical := total_critical
    total_high := total_high
    total_medium := total_medium
    total_low := total_low
    total := total_critical + total_high + total_medium + total_low
    sast := ⟨sastCritical, sastHigh, 0, 0⟩
    sca := ⟨scaCritical, scaHigh, scaMedium, scaLow⟩
    dast := dast
    thresholds := thresholds
    passed := failures.isEmpty
    failures := failures }

/-- `main()` up to (and including) building the summary.  The additions of
lines 156-159 raise `TypeError` when an SCA value forwarded raw from the npm
audit report is not an int (or bool); that uncaught exception is the
`Except.error` case.  Where the source writes the raw SCA values into the
summary, the model writes their integer value — identical for ints, and for
bools equal under Python's `True == 1` convention. -/
def run (fs : FS) : Except Unit Summary :=
  let sast := resolveSast fs
  let sca := resolveSca fs
  let dast := resolveDast fs
  match jsonAddable sca.critical, jsonAddable sca.high,
        jsonAddable sca.medium, jsonAddable sca.low with
  | .ok a, .ok b, .ok c, .ok d => .ok (mkSummary sast.1 sast.2 a b c d dast)
  | _, _, _, _ => .error ()

/-- The summary a run produces, `none` when `main` dies on an uncaught
exception. -/
def runSummary (fs : FS) : Option Summary :=
  (run fs).toOption

/-- Lines 244-285: `main` returns 1 when `failures` is nonempty and 0
otherwise, `sys.exit` forwards that value, and the top-level handler exits 1
on any uncaught exception. -/
def exitCode (fs : FS) : Nat :=
  match run fs with
  | .ok s => if s.failures.isEmpty then 0 else 1
  | .error _ => 1

/-! ## Serialization of the summary (lines 206-238) and its re-parse -/

/-- `json.dump(summary, ...)` at the JSON-value level: the summary object
with the exact key set and nesting of lines 206-233. -/
def summaryToJson (s : Summary) : Json :=
  .obj [
    ("total_critical", .num s.total_critical),
    ("total_high", .num s.total_high),
    ("total_medium", .num s.total_medium),
    ("total_low", .num s.total_low),
    ("total", .num s.total),
    ("sast", .obj [("critical", .num s.sast.critical), ("high", .num s.sast.high),
                   ("medium", .num s.sast.medium), ("low", .num s.sast.low)]),
    ("sca", .obj [("critical", .num s.sca.critical), ("high", .num s.sca.high),
                  ("medium", .num s.sca.medium), ("low", .num s.sca.low)]),
    ("dast", .obj [("critical", .num s.dast.critical), ("high", .num s.dast.high),
                   ("medium", .num s.dast.medium), ("low", .num s.dast.low)]),
    ("thresholds", .obj [("critical", .num s.thresholds.critical), ("high", .num s.thresholds.high),
                         ("medium", .num s.thresholds.medium), ("low", .num s.thresholds.low)]),
    ("passed", .bool s.passed),
    ("failures", .arr (s.failures.map Json.str))]

/-- Field access on a decoded JSON object. -/
def Json.getField (j : Json) (k : String) : Option Json :=
  match j with
  | .obj l => l.lookup k
  | _ => none

/-- An integer JSON value. -/
def Json.asInt : Json → Option Int
  | .num n => some n
  | _ => none

/-- A boolean JSON value. -/
def Json.asBool : Json → Option Bool
  | .bool b => some b
  | _ => none

/-- Re-parse of the written summary: the four per-severity totals, the
overall total and the `passed` flag, read back from the JSON document. -/
def decodeTotals (j : Json) : Option (Int × Int × Int × Int × Int × Bool) := do
  let tc ← (j.getField "total_critical").bind Json.asInt
  let th ← (j.getField "total_high").bind Json.asInt
  let tm ← (j.getField "total_medium").bind Json.asInt
  let tl ← (j.getField "total_low").bind Json.asInt
  let tot ← (j.getField "total").bind Json.asInt
  let p ← (j.getField "passed").bind Json.asBool
  pure (tc, th, tm, tl, tot, p)

/-! ## Helper definitions for the claims -/

/-- All four raw SCA values are int-addable — exactly the condition under
which the additions of lines 156-159 do not raise. -/
def scaOk (fs : FS) : Bool :=
  (jsonAddable (resolveSca fs).critical).toOption.isSome
    && (jsonAddable (resolveSca fs).high).toOption.isSome
    && (jsonAddable (resolveSca fs).medium).toOption.isSome
    && (jsonAddable (resolveSca fs).low).toOption.isSome

/-- A ZAP alert with a numeric `riskcode`. -/
def mkZapAlertNum (r : Int) : Json := .obj [("riskcode", .num r)]

/-- A ZAP alert with a stringified `riskcode`. -/
def mkZapAlertStr (r : Int) : Json := .obj [("riskcode", .str (intToStr r))]

/-- A ZAP site holding the given alerts. -/
def mkZapSite (alerts : List Json) : Json := .obj [("alerts", .arr alerts)]

/-- A ZAP document holding the given sites. -/
def mkZapDoc (sites : List Json) : Json := .obj [("site", .arr sites)]

/-- A well-formed ZAP document whose alerts carry the given numeric risk
codes, grouped into sites. -/
def zapDocNum (sitess : List (List Int)) : Json :=
  mkZapDoc (sitess.map fun als => mkZapSite (als.map mkZapAlertNum))

/-- The same document with every risk code stringified. -/
def zapDocStr (sitess : List (List Int)) : Json :=
  mkZapDoc (sitess.map fun als => mkZapSite (als.map mkZapAlertStr))

/-- Reference counts: how many risk codes across all sites equal 3 / 2 / 1 /
0 (any other value belongs to no bucket). -/
def riskCounts (sitess : List (List Int)) : Counts4 :=
  ⟨(sitess.flatten.count 3 : Nat), (sitess.flatten.count 2 : Nat),
   (sitess.flatten.count 1 : Nat), (sitess.flatten.count 0 : Nat)⟩

/-! ## Concrete filesystems used as witnesses and counterexamples -/

/-- No input artifact at all. -/
def fsEmpty : FS := []

/-- The summary of a run over `fsEmpty` (all counts zero). -/
def s0 : Summary := mkSummary 0 0 0 0 0 0 ⟨0, 0, 0, 0⟩

/-- A SAST *high* plain-text count file (value 5) together with a Semgrep
JSON report containing one `ERROR` result — but no `sast-critical.txt`. -/
def fsHighTxtAndJson : FS :=
  [(sastHighTxt, .text "5"),
   (semgrepJson, .jsonDoc "semgrep"
     (.obj [("results", .arr [.obj [("extra", .obj [("severity", .str "ERROR")])]])]))]

/-- An npm audit report whose `metadata.vulnerabilities.critical` is the
string `"abc"` (well-formed JSON, non-integer count field). -/
def fsNpmNonInt : FS :=
  [("sca-results/npm-audit-results.json", .jsonDoc "npm"
     (.obj [("metadata", .obj [("vulnerabilities", .obj [("critical", .str "abc")])])]))]

/-- A SAST critical count file containing `-1`. -/
def fsNegCount : FS := [(sastCriticalTxt, .text "-1")]

/-- DAST count files: 1 critical, 2 high. -/
def fsDastTwoFailures : FS := [(dastCriticalTxt, .text "1"), (dastHighTxt, .text "2")]

/-- The summary of a run over `fsDastTwoFailures`. -/
def sDast12 : Summary := mkSummary 0 0 0 0 0 0 ⟨1, 2, 0, 0⟩

/-! ## Helper lemmas: stripping and decimal parsing -/

theorem dropWhile_eq_self_of_all {α : Type} {p : α → Bool} :
    ∀ l : List α, (∀ c ∈ l, p c = false) → l.dropWhile p = l := by
  intro l h
  cases l with
  | nil => rfl
  | cons a t =>
    rw [List.dropWhile_cons]
    simp [h a (List.mem_cons_self a t)]

theorem stripChars_eq_self_of_all {l : List Char}
    (h : ∀ c ∈ l, isPyWs c = false) : stripChars l = l := by
  unfold stripChars
  rw [dropWhile_eq_self_of_all l h]
  rw [dropWhile_eq_self_of_all l.reverse (by intro c hc; exact h c (List.mem_reverse.mp hc))]
  exact List.reverse_reverse l

theorem digitChar_isDigit {d : Nat} (h : d < 10) : (Nat.digitChar d).isDigit = true := by
  interval_cases d <;> decide

theorem digitChar_toNat {d : Nat} (h : d < 10) : (Nat.digitChar d).toNat - 48 = d := by
  interval_cases d <;> decide

theorem char_ne_of_isDigit {c x : Char} (h : c.isDigit = true) (hx : x.isDigit = false) :
    c ≠ x := by
  intro he
  subst he
  rw [h] at hx
  exact absurd hx (by decide)

theorem not_ws_of_isDigit {c : Char} (h : c.isDigit = true) : isPyWs c = false := by
  unfold isPyWs
  simp only [Bool.or_eq_false_iff, beq_eq_false_iff_ne]
  exact ⟨⟨⟨⟨⟨char_ne_of_isDigit h (by decide), char_ne_of_isDigit h (by decide)⟩,
    char_ne_of_isDigit h (by decide)⟩, char_ne_of_isDigit h (by decide)⟩,
    char_ne_of_isDigit h (by decide)⟩, char_ne_of_isDigit h (by decide)⟩

theorem natToRevDigits_all_digit (n : Nat) :
    ∀ c ∈ natToRevDigits n, c.isDigit = true := by
  induction n using Nat.strong_induction_on with
  | _ n ih =>
    rw [natToRevDigits]
    split
    · intro c hc
      rw [List.mem_singleton] at hc
      subst hc
      exact digitChar_isDigit (by omega)
    · intro c hc
      rcases List.mem_cons.mp hc with h1 | h2
      · subst h1
        exact digitChar_isDigit (Nat.mod_lt _ (by omega))
      · exact ih (n / 10) (Nat.div_lt_self (by omega) (by omega)) c h2

theorem natToRevDigits_ne_nil (n : Nat) : natToRevDigits n ≠ [] := by
  rw [natToRevDigits]
  split <;> simp

theorem digitsToNat_append_singleton (l : List Char) (c : Char) :
    digitsToNat (l ++ [c]) = 10 * digitsToNat l + (c.toNat - 48) := by
  simp [digitsToNat, List.foldl_append]

theorem digitsToNat_natDigits (n : Nat) : digitsToNat (natDigits n) = n := by
  unfold natDigits
  induction n using Nat.strong_induction_on with
  | _ n ih =>
    rw [natToRevDigits]
    split
    · simp [digitsToNat]
      exact digitChar_toNat (by omega)
    · rw [List.reverse_cons, digitsToNat_append_singleton,
        ih (n / 10) (Nat.div_lt_self (by omega) (by omega)),
        digitChar_toNat (Nat.mod_lt _ (by omega))]
      omega

theorem natDigits_all_digit (n : Nat) : ∀ c ∈ natDigits n, c.isDigit = true := by
  intro c hc
  exact natToRevDigits_all_digit n c (List.mem_reverse.mp hc)

theorem natDigits_ne_nil (n : Nat) : natDigits n ≠ [] := by
  unfold natDigits
  simp [natToRevDigits_ne_nil n]

theorem pyIntOfStripped_digits {l : List Char} (h1 : l ≠ [])
    (h2 : ∀ c ∈ l, c.isDigit = true) :
    pyIntOfStripped l = some (Int.ofNat (digitsToNat l)) := by
  cases l with
  | nil => exact absurd rfl h1
  | cons c rest =>
    have hc : c.isDigit = true := h2 c (List.mem_cons_self c rest)
    have hall : (c :: rest).all Char.isDigit = true := List.all_eq_true.mpr h2
    simp only [pyIntOfStripped]
    rw [if_neg (char_ne_of_isDigit hc (by decide)),
      if_neg (char_ne_of_isDigit hc (by decide))]
    unfold natOfDigits
    rw [if_neg (by simp), if_pos hall]
    rfl

theorem pyIntParse_natToStr (n : Nat) : pyIntParse (natToStr n) = some (Int.ofNat n) := by
  unfold pyIntParse natToStr
  show pyIntOfStripped (stripChars (natDigits n)) = _
  rw [stripChars_eq_self_of_all (fun c hc => not_ws_of_isDigit (natDigits_all_digit n c hc))]
  rw [pyIntOfStripped_digits (natDigits_ne_nil n) (natDigits_all_digit n)]
  rw [digitsToNat_natDigits]

theorem pyIntParse_intToStr (n : Int) : pyIntParse (intToStr n) = some n := by
  unfold intToStr
  split
  · have hdata : ("-" ++ natToStr n.natAbs).data = '-' :: natDigits n.natAbs := by
      rw [String.data_append]
      rfl
    unfold pyIntParse
    rw [hdata]
    have hall : ∀ c ∈ ('-' :: natDigits n.natAbs), isPyWs c = false := by
      intro c hc
      rcases List.mem_cons.mp hc with h1 | h2
      · subst h1; decide
      · exact not_ws_of_isDigit (natDigits_all_digit _ c h2)
    rw [stripChars_eq_self_of_all hall]
    simp only [pyIntOfStripped]
    rw [if_pos trivial]
    unfold natOfDigits
    rw [if_neg (natDigits_ne_nil _), if_pos (List.all_eq_true.mpr (natDigits_all_digit _))]
    rw [digitsToNat_natDigits]
    rw [if_neg (show ('-' : Char) ≠ '+' by decide)]
    have habs : (Int.ofNat n.natAbs) = -n := Int.ofNat_natAbs_of_nonpos (by omega)
    simp only [Option.bind_eq_bind, Option.some_bind, Option.map_some']
    rw [show ((n.natAbs : Int)) = -n from habs]
    simp
  · rw [pyIntParse_natToStr]
    congr 1
    exact Int.natAbs_of_nonneg (by omega)

/-! ## Helper lemmas: filesystem, folds, run characterization -/

theorem FS.read_set_ne (fs : FS) {p q : String} (c : FileContent) (h : p ≠ q) :
    (fs.set p c).read q = fs.read q := by
  simp [FS.set, FS.read, List.lookup, beq_eq_false_iff_ne.mpr (Ne.symm h)]

theorem foldlM_except_inv {α β : Type} (P : β → Prop) (f : β → α → Except Unit β)
    (hf : ∀ b a b', P b → f b a = .ok b' → P b') :
    ∀ (l : List α) (b b' : β), P b → l.foldlM f b = .ok b' → P b' := by
  intro l
  induction l with
  | nil =>
    intro b b' hP h
    simp only [List.foldlM_nil] at h
    exact (Except.ok.inj h) ▸ hP
  | cons a t ih =>
    intro b b' hP h
    rw [List.foldlM_cons] at h
    cases hfa : f b a with
    | error e => rw [hfa] at h; exact Except.noConfusion h
    | ok b1 =>
      rw [hfa] at h
      exact ih b1 b' (hf b a b1 hP hfa) h

theorem mkSummary_fields (a b c d e f : Int) (g : Counts4) :
    (mkSummary a b c d e f g).total_critical = a + c + g.critical
    ∧ (mkSummary a b c d e f g).total_high = b + d + g.high
    ∧ (mkSummary a b c d e f g).total_medium = e + g.medium
    ∧ (mkSummary a b c d e f g).total_low = f + g.low
    ∧ (mkSummary a b c d e f g).total
        = (a + c + g.critical) + (b + d + g.high) + (e + g.medium) + (f + g.low)
    ∧ (mkSummary a b c d e f g).sast = ⟨a, b, 0, 0⟩
    ∧ (mkSummary a b c d e f g).sca = ⟨c, d, e, f⟩
    ∧ (mkSummary a b c d e f g).dast = g
    ∧ (mkSummary a b c d e f g).thresholds = thresholds
    ∧ (mkSummary a b c d e f g).failures
        = computeFailures (a + c + g.critical) (b + d + g.high) (e + g.medium) (f + g.low)
    ∧ (mkSummary a b c d e f g).passed
        = (computeFailures (a + c + g.critical) (b + d + g.high)
            (e + g.medium) (f + g.low)).isEmpty := by
  refine ⟨rfl, rfl, rfl, rfl, rfl, rfl, rfl, rfl, rfl, rfl, rfl⟩

theorem runSummary_eq_some_iff (fs : FS) (s : Summary) :
    runSummary fs = some s
      ↔ ∃ a b c d : Int,
          jsonAddable (resolveSca fs).critical = .ok a
          ∧ jsonAddable (resolveSca fs).high = .ok b
          ∧ jsonAddable (resolveSca fs).medium = .ok c
          ∧ jsonAddable (resolveSca fs).low = .ok d
          ∧ s = mkSummary (resolveSast fs).1 (resolveSast fs).2 a b c d (resolveDast fs) := by
  unfold runSummary run
  rcases h1 : jsonAddable (resolveSca fs).critical with e1 | a1 <;>
    rcases h2 : jsonAddable (resolveSca fs).high with e2 | a2 <;>
      rcases h3 : jsonAddable (resolveSca fs).medium with e3 | a3 <;>
        rcases h4 : jsonAddable (resolveSca fs).low with e4 | a4 <;>
          simp [h1, h2, h3, h4, Except.toOption, eq_comm]

/-! ## Helper lemmas: failure messages and gate evaluation -/

theorem computeFailures_eq (tc th tm tl : Int) :
    computeFailures tc th tm tl
      = (if tc > thresholds.critical then [criticalMsg tc] else [])
        ++ (if th > thresholds.high then [highMsg th] else [])
        ++ (if tm > thresholds.medium then [mediumMsg tm] else [])
        ++ (if tl > thresholds.low then [lowMsg tl] else []) := by
  unfold computeFailures
  split_ifs <;> simp

theorem computeFailures_eq_nil_iff (tc th tm tl : Int) :
    computeFailures tc th tm tl = []
      ↔ tc ≤ thresholds.critical ∧ th ≤ thresholds.high
        ∧ tm ≤ thresholds.medium ∧ tl ≤ thresholds.low := by
  rw [computeFailures_eq]
  split_ifs <;> simp_all

theorem msg_ne_of_head {s t : String} (h : s.data.head? ≠ t.data.head?) : s ≠ t := by
  intro he
  exact h (he ▸ rfl)

theorem criticalMsg_head (n : Int) : (criticalMsg n).data.head? = some 'C' := rfl

theorem highMsg_head (n : Int) : (highMsg n).data.head? = some 'H' := rfl

theorem mediumMsg_head (n : Int) : (mediumMsg n).data.head? = some 'M' := rfl

theorem lowMsg_head (n : Int) : (lowMsg n).data.head? = some 'L' := rfl

theorem criticalMsg_ne_highMsg (m n : Int) : criticalMsg m ≠ highMsg n :=
  msg_ne_of_head (by rw [criticalMsg_head, highMsg_head]; decide)

theorem criticalMsg_ne_mediumMsg (m n : Int) : criticalMsg m ≠ mediumMsg n :=
  msg_ne_of_head (by rw [criticalMsg_head, mediumMsg_head]; decide)

theorem criticalMsg_ne_lowMsg (m n : Int) : criticalMsg m ≠ lowMsg n :=
  msg_ne_of_head (by rw [criticalMsg_head, lowMsg_head]; decide)

theorem highMsg_ne_mediumMsg (m n : Int) : highMsg m ≠ mediumMsg n :=
  msg_ne_of_head (by rw [highMsg_head, mediumMsg_head]; decide)

theorem highMsg_ne_lowMsg (m n : Int) : highMsg m ≠ lowMsg n :=
  msg_ne_of_head (by rw [highMsg_head, lowMsg_head]; decide)

theorem mediumMsg_ne_lowMsg (m n : Int) : mediumMsg m ≠ lowMsg n :=
  msg_ne_of_head (by rw [mediumMsg_head, lowMsg_head]; decide)

theorem criticalMsg_mem_computeFailures (tc th tm tl : Int) :
    criticalMsg tc ∈ computeFailures tc th tm tl ↔ tc > thresholds.critical := by
  rw [computeFailures_eq]
  split_ifs with h1 h2 h3 h4 <;>
    simp_all [List.mem_append, criticalMsg_ne_highMsg tc th,
      criticalMsg_ne_mediumMsg tc tm, criticalMsg_ne_lowMsg tc tl]

theorem highMsg_mem_computeFailures (tc th tm tl : Int) :
    highMsg th ∈ computeFailures tc th tm tl ↔ th > thresholds.high := by
  rw [computeFailures_eq]
  split_ifs with h1 h2 h3 h4 <;>
    simp_all [List.mem_append, (criticalMsg_ne_highMsg tc th).symm,
      highMsg_ne_mediumMsg th tm, highMsg_ne_lowMsg th tl]

theorem mediumMsg_mem_computeFailures (tc th tm tl : Int) :
    mediumMsg tm ∈ computeFailures tc th tm tl ↔ tm > thresholds.medium := by
  rw [computeFailures_eq]
  split_ifs with h1 h2 h3 h4 <;>
    simp_all [List.mem_append, (criticalMsg_ne_mediumMsg tc tm).symm,
      (highMsg_ne_mediumMsg th tm).symm, mediumMsg_ne_lowMsg tm tl]

theorem lowMsg_mem_computeFailures (tc th tm tl : Int) :
    lowMsg tl ∈ computeFailures tc th tm tl ↔ tl > thresholds.low := by
  rw [computeFailures_eq]
  split_ifs with h1 h2 h3 h4 <;>
    simp_all [List.mem_append, (criticalMsg_ne_lowMsg tc tl).symm,
      (highMsg_ne_lowMsg th tl).symm, (mediumMsg_ne_lowMsg tm tl).symm]

/-! ## Helper lemmas: `Except` reductions and the ZAP fold -/

theorem except_bind_ok {α β : Type} (x : α) (k : α → Except Unit β) :
    (Except.ok x >>= k) = k x := rfl

theorem except_bind_error {α β : Type} (e : Unit) (k : α → Except Unit β) :
    ((Except.error e : Except Unit α) >>= k) = .error e := rfl

theorem except_map_ok {α β : Type} (f : α → β) (x : α) :
    (f <$> (Except.ok x : Except Unit α)) = .ok (f x) := rfl

theorem zapAlertStep_num (acc : Counts4) (r : Int) :
    zapAlertStep acc (mkZapAlertNum r)
      = .ok (if r = 3 then { acc with critical := acc.critical + 1 }
        else if r = 2 then { acc with high := acc.high + 1 }
        else if r = 1 then { acc with medium := acc.medium + 1 }
        else if r = 0 then { acc with low := acc.low + 1 }
        else acc) := rfl

theorem zapAlertStep_str (acc : Counts4) (r : Int) :
    zapAlertStep acc (mkZapAlertStr r)
      = .ok (if r = 3 then { acc with critical := acc.critical + 1 }
        else if r = 2 then { acc with high := acc.high + 1 }
        else if r = 1 then { acc with medium := acc.medium + 1 }
        else if r = 0 then { acc with low := acc.low + 1 }
        else acc) := by
  have hr : riskToInt (.str (intToStr r)) = .ok r := by
    simp only [riskToInt]
    rw [pyIntParse_intToStr r]
  simp [zapAlertStep, mkZapAlertStr, pyGet, List.lookup, except_bind_ok, hr, except_map_ok]

theorem zap_fold_alerts {mkA : Int → Json}
    (hstep : ∀ (acc : Counts4) (r : Int), zapAlertStep acc (mkA r)
      = .ok (if r = 3 then { acc with critical := acc.critical + 1 }
        else if r = 2 then { acc with high := acc.high + 1 }
        else if r = 1 then { acc with medium := acc.medium + 1 }
        else if r = 0 then { acc with low := acc.low + 1 }
        else acc)) :
    ∀ (als : List Int) (acc : Counts4),
      (als.map mkA).foldlM zapAlertStep acc
        = .ok ⟨acc.critical + (als.count 3 : Nat), acc.high + (als.count 2 : Nat),
               acc.medium + (als.count 1 : Nat), acc.low + (als.count 0 : Nat)⟩ := by
  intro als
  induction als with
  | nil => intro acc; simp [List.foldlM_nil, pure, Except.pure]
  | cons r t ih =>
    intro acc
    simp only [List.map_cons, List.foldlM_cons, hstep, except_bind_ok]
    rw [ih]
    congr 1
    split_ifs <;> simp_all [List.count_cons] <;> omega

theorem zapSiteStep_mk {mkA : Int → Json}
    (hstep : ∀ (acc : Counts4) (r : Int), zapAlertStep acc (mkA r)
      = .ok (if r = 3 then { acc with critical := acc.critical + 1 }
        else if r = 2 then { acc with high := acc.high + 1 }
        else if r = 1 then { acc with medium := acc.medium + 1 }
        else if r = 0 then { acc with low := acc.low + 1 }
        else acc))
    (als : List Int) (acc : Counts4) :
    zapSiteStep acc (mkZapSite (als.map mkA))
      = .ok ⟨acc.critical + (als.count 3 : Nat), acc.high + (als.count 2 : Nat),
             acc.medium + (als.count 1 : Nat), acc.low + (als.count 0 : Nat)⟩ := by
  have h1 : pyGet (mkZapSite (als.map mkA)) "alerts" (.arr [])
      = .ok (.arr (als.map mkA)) := rfl
  simp only [zapSiteStep, h1, except_bind_ok]
  exact zap_fold_alerts hstep als acc

theorem zap_fold_sites {mkA : Int → Json}
    (hstep : ∀ (acc : Counts4) (r : Int), zapAlertStep acc (mkA r)
      = .ok (if r = 3 then { acc with critical := acc.critical + 1 }
        else if r = 2 then { acc with high := acc.high + 1 }
        else if r = 1 then { acc with medium := acc.medium + 1 }
        else if r = 0 then { acc with low := acc.low + 1 }
        else acc)) :
    ∀ (sitess : List (List Int)) (acc : Counts4),
      ((sitess.map fun als => mkZapSite (als.map mkA)).foldlM zapSiteStep acc)
        = .ok ⟨acc.critical + (sitess.flatten.count 3 : Nat),
               acc.high + (sitess.flatten.count 2 : Nat),
               acc.medium + (sitess.flatten.count 1 : Nat),
               acc.low + (sitess.flatten.count 0 : Nat)⟩ := by
  intro sitess
  induction sitess with
  | nil => intro acc; simp [List.foldlM_nil, pure, Except.pure]
  | cons als t ih =>
    intro acc
    simp only [List.map_cons, List.foldlM_cons, zapSiteStep_mk hstep, except_bind_ok]
    rw [ih]
    congr 1
    simp [List.flatten_cons, List.count_append]
    constructor
    · omega
    constructor
    · omega
    constructor <;> omega

theorem parse_zap_core_num (sitess : List (List Int)) :
    parse_zap_core (zapDocNum sitess) = .ok (riskCounts sitess) := by
  have h1 : pyGet (zapDocNum sitess) "site" (.arr [])
      = .ok (.arr (sitess.map fun als => mkZapSite (als.map mkZapAlertNum))) := rfl
  simp only [parse_zap_core, h1, except_bind_ok]
  rw [zap_fold_sites zapAlertStep_num sitess ⟨0, 0, 0, 0⟩]
  simp [riskCounts]

theorem parse_zap_core_str (sitess : List (List Int)) :
    parse_zap_core (zapDocStr sitess) = .ok (riskCounts sitess) := by
  have h1 : pyGet (zapDocStr sitess) "site" (.arr [])
      = .ok (.arr (sitess.map fun als => mkZapSite (als.map mkZapAlertStr))) := rfl
  simp only [parse_zap_core, h1, except_bind_ok]
  rw [zap_fold_sites zapAlertStep_str sitess ⟨0, 0, 0, 0⟩]
  simp [riskCounts]

theorem parse_zap_results_num (raw : String) (sitess : List (List Int)) :
    parse_zap_results (some (.jsonDoc raw (zapDocNum sitess))) = riskCounts sitess := by
  simp [parse_zap_results, FileContent.asJson, parse_zap_core_num sitess]

theorem parse_zap_results_str (raw : String) (sitess : List (List Int)) :
    parse_zap_results (some (.jsonDoc raw (zapDocStr sitess))) = riskCounts sitess := by
  simp [parse_zap_results, FileContent.asJson, parse_zap_core_str sitess]

/-! ## Helper lemmas: non-negativity of the JSON parsers -/

theorem zapAlertStep_nonneg {acc acc' : Counts4} {a : Json}
    (hP : 0 ≤ acc.critical ∧ 0 ≤ acc.high ∧ 0 ≤ acc.medium ∧ 0 ≤ acc.low)
    (h : zapAlertStep acc a = .ok acc') :
    0 ≤ acc'.critical ∧ 0 ≤ acc'.high ∧ 0 ≤ acc'.medium ∧ 0 ≤ acc'.low := by
  unfold zapAlertStep at h
  cases hg : pyGet a "riskcode" (.num 0) with
  | error e => rw [hg, except_bind_error] at h; exact Except.noConfusion h
  | ok rc =>
    rw [hg, except_bind_ok] at h
    cases hr : riskToInt rc with
    | error e => rw [hr] at h; exact Except.noConfusion h
    | ok r =>
      rw [hr, except_bind_ok] at h
      have h' := (Except.ok.inj h).symm
      subst h'
      split_ifs <;> simp_all <;> omega

theorem zapSiteStep_nonneg {acc acc' : Counts4} {site : Json}
    (hP : 0 ≤ acc.critical ∧ 0 ≤ acc.high ∧ 0 ≤ acc.medium ∧ 0 ≤ acc.low)
    (h : zapSiteStep acc site = .ok acc') :
    0 ≤ acc'.critical ∧ 0 ≤ acc'.high ∧ 0 ≤ acc'.medium ∧ 0 ≤ acc'.low := by
  unfold zapSiteStep at h
  cases hg : pyGet site "alerts" (.arr []) with
  | error e => rw [hg, except_bind_error] at h; exact Except.noConfusion h
  | ok alerts =>
    rw [hg, except_bind_ok] at h
    cases alerts with
    | arr l =>
      exact foldlM_except_inv
        (fun c => 0 ≤ c.critical ∧ 0 ≤ c.high ∧ 0 ≤ c.medium ∧ 0 ≤ c.low)
        zapAlertStep (fun b a b' hb hba => zapAlertStep_nonneg hb hba) l acc acc' hP h
    | null => exact Except.noConfusion h
    | bool b => exact Except.noConfusion h
    | num n => exact Except.noConfusion h
    | str s => exact Except.noConfusion h
    | obj o => exact Except.noConfusion h

theorem parse_zap_results_nonneg (c : Option FileContent) :
    0 ≤ (parse_zap_results c).critical ∧ 0 ≤ (parse_zap_results c).high
      ∧ 0 ≤ (parse_zap_results c).medium ∧ 0 ≤ (parse_zap_results c).low := by
  unfold parse_zap_results
  cases c with
  | none => simp
  | some fc =>
    cases hj : fc.asJson with
    | none => simp [hj]
    | some data =>
      simp only [hj]
      cases hc : parse_zap_core data with
      | error e => simp [hc]
      | ok r =>
        simp only [hc]
        unfold parse_zap_core at hc
        cases hg : pyGet data "site" (.arr []) with
        | error e => rw [hg, except_bind_error] at hc; exact Except.noConfusion hc
        | ok sites =>
          rw [hg, except_bind_ok] at hc
          cases sites with
          | arr l =>
            exact foldlM_except_inv
              (fun c => 0 ≤ c.critical ∧ 0 ≤ c.high ∧ 0 ≤ c.medium ∧ 0 ≤ c.low)
              zapSiteStep (fun b a b' hb hba => zapSiteStep_nonneg hb hba) l _ r
              (by norm_num) hc
          | null => exact Except.noConfusion hc
          | bool b => exact Except.noConfusion hc
          | num n => exact Except.noConfusion hc
          | str s => exact Except.noConfusion hc
          | obj o => exact Except.noConfusion hc

theorem semgrepStep_nonneg {acc acc' : Int × Int} {r : Json}
    (hP : 0 ≤ acc.1 ∧ 0 ≤ acc.2) (h : semgrepStep acc r = .ok acc') :
    0 ≤ acc'.1 ∧ 0 ≤ acc'.2 := by
  unfold semgrepStep at h
  cases hg : pyGet r "extra" (.obj []) with
  | error e => rw [hg, except_bind_error] at h; exact Except.noConfusion h
  | ok extra =>
    rw [hg, except_bind_ok] at h
    cases hs : pyGet extra "severity" .null with
    | error e => rw [hs, except_bind_error] at h; exact Except.noConfusion h
    | ok sev =>
      rw [hs, except_bind_ok] at h
      have h' := (Except.ok.inj h).symm
      subst h'
      constructor <;> split_ifs <;> simp_all <;> omega

theorem parse_semgrep_results_nonneg (c : Option FileContent) :
    0 ≤ (parse_semgrep_results c).1 ∧ 0 ≤ (parse_semgrep_results c).2 := by
  unfold parse_semgrep_results
  cases c with
  | none => simp
  | some fc =>
    cases hj : fc.asJson with
    | none => simp [hj]
    | some data =>
      simp only [hj]
      cases hc : parse_semgrep_core data with
      | error e => simp [hc]
      | ok r =>
        simp only [hc]
        unfold parse_semgrep_core at hc
        cases hg : pyGet data "results" (.arr []) with
        | error e => rw [hg, except_bind_error] at hc; exact Except.noConfusion hc
        | ok results =>
          rw [hg, except_bind_ok] at hc
          cases results with
          | arr l =>
            exact foldlM_except_inv (fun p => 0 ≤ p.1 ∧ 0 ≤ p.2)
              semgrepStep (fun b a b' hb hba => semgrepStep_nonneg hb hba) l _ r
              (by norm_num) hc
          | null => exact Except.noConfusion hc
          | bool b => exact Except.noConfusion hc
          | num n => exact Except.noConfusion hc
          | str s => exact Except.noConfusion hc
          | obj o => exact Except.noConfusion hc

/-! ## The claims -/

/-- C1: with every threshold fixed at 0, the gate passes (the `failures`
list built by lines 191-203 is empty) iff every total is ≤ its threshold,
and — on the data model's domain of non-negative counts — iff every total is
exactly 0; the summary's `passed` field is true iff `failures` is empty; a
bucket's message is in `failures` exactly when its total strictly exceeds
its threshold. -/
theorem gate_pass_iff :
    thresholds = ⟨0, 0, 0, 0⟩
    ∧ (∀ tc th tm tl : Int,
        (computeFailures tc th tm tl = []
          ↔ tc ≤ thresholds.critical ∧ th ≤ thresholds.high
            ∧ tm ≤ thresholds.medium ∧ tl ≤ thresholds.low)
        ∧ (0 ≤ tc → 0 ≤ th → 0 ≤ tm → 0 ≤ tl →
            (computeFailures tc th tm tl = [] ↔ tc = 0 ∧ th = 0 ∧ tm = 0 ∧ tl = 0))
        ∧ (criticalMsg tc ∈ computeFailures tc th tm tl ↔ tc > thresholds.critical)
        ∧ (highMsg th ∈ computeFailures tc th tm tl ↔ th > thresholds.high)
        ∧ (mediumMsg tm ∈ computeFailures tc th tm tl ↔ tm > thresholds.medium)
        ∧ (lowMsg tl ∈ computeFailures tc th tm tl ↔ tl > thresholds.low))
    ∧ (∀ (fs : FS) (s : Summary), runSummary fs = some s →
        (s.passed = true ↔ s.failures = [])) := by
  refine ⟨rfl, ?_, ?_⟩
  · intro tc th tm tl
    refine ⟨computeFailures_eq_nil_iff tc th tm tl, ?_,
      criticalMsg_mem_computeFailures tc th tm tl,
      highMsg_mem_computeFailures tc th tm tl,
      mediumMsg_mem_computeFailures tc th tm tl,
      lowMsg_mem_computeFailures tc th tm tl⟩
    intro htc hth htm htl
    rw [computeFailures_eq_nil_iff]
    simp only [thresholds]
    omega
  · intro fs s h
    obtain ⟨a, b, c, d, _, _, _, _, hs⟩ := (runSummary_eq_some_iff fs s).mp h
    subst hs
    exact List.isEmpty_iff

/-- Witness for C1 at concrete inputs. -/
theorem gate_pass_iff_witness :
    (computeFailures 0 0 0 0 = [] ↔ (0:Int) = 0 ∧ (0:Int) = 0 ∧ (0:Int) = 0 ∧ (0:Int) = 0)
    ∧ criticalMsg 1 ∈ computeFailures 1 0 0 0
    ∧ (s0.passed = true ↔ s0.failures = []) := by
  refine ⟨(gate_pass_iff.2.1 0 0 0 0).2.1 (by norm_num) (by norm_num) (by norm_num) (by norm_num),
    ?_, gate_pass_iff.2.2 fsEmpty s0 rfl⟩
  exact ((gate_pass_iff.2.1 1 0 0 0).2.2.1).mpr (by norm_num [thresholds])

/-- C2: for every run that produces a summary, each severity total equals
the sum of the per-category counts (SAST contributing only to critical and
high; its medium and low entries are the literal zeros of lines 215-216). -/
theorem totals_eq_category_sums :
    ∀ (fs : FS) (s : Summary), runSummary fs = some s →
      s.total_critical = s.sast.critical + s.sca.critical + s.dast.critical
      ∧ s.total_high = s.sast.high + s.sca.high + s.dast.high
      ∧ s.total_medium = s.sca.medium + s.dast.medium
      ∧ s.total_low = s.sca.low + s.dast.low
      ∧ s.sast.medium = 0 ∧ s.sast.low = 0 := by
  intro fs s h
  obtain ⟨a, b, c, d, _, _, _, _, hs⟩ := (runSummary_eq_some_iff fs s).mp h
  subst hs
  exact ⟨rfl, rfl, rfl, rfl, rfl, rfl⟩

/-- Witness for C2 at the empty filesystem. -/
theorem totals_eq_category_sums_witness :
    s0.total_critical = s0.sast.critical + s0.sca.critical + s0.dast.critical
    ∧ s0.total_high = s0.sast.high + s0.sca.high + s0.dast.high
    ∧ s0.total_medium = s0.sca.medium + s0.dast.medium
    ∧ s0.total_low = s0.sca.low + s0.dast.low
    ∧ s0.sast.medium = 0 ∧ s0.sast.low = 0 :=
  totals_eq_category_sums fsEmpty s0 rfl

/-- C3 counterexample: `sast-high.txt` (a plain-text count file, value 5)
and the Semgrep JSON report both exist, yet the run parses the JSON report
(one ERROR result) and ignores the plain-text value: the summary records
sast critical 1 and high 0, not the verbatim 5 — because the code's branch
condition tests only `sast-critical.txt`. -/
theorem resolution_pref_counterexample :
    FS.exists fsHighTxtAndJson sastHighTxt = true
    ∧ FS.exists fsHighTxtAndJson semgrepJson = true
    ∧ read_count (FS.read fsHighTxtAndJson sastHighTxt) 0 = 5
    ∧ (runSummary fsHighTxtAndJson).map (fun s => (s.sast.critical, s.sast.high))
        = some (1, 0) := ⟨rfl, rfl, rfl, rfl⟩

/-- C3 amended: the short-circuit trigger is the category's *critical*
plain-text file alone.  When it exists, all of the category's plain-text
counts are read (a missing one defaulting to 0) and the JSON report is
never consulted (the result is invariant under rewriting it); when it does
not exist, the JSON report is parsed if present; with neither, all counts
for the category are zero — even if other plain-text files exist. -/
theorem resolution_amended :
    ∀ fs : FS,
      ((fs.exists sastCriticalTxt = true →
          resolveSast fs
            = (read_count (fs.read sastCriticalTxt) 0, read_count (fs.read sastHighTxt) 0)
          ∧ ∀ c, resolveSast (fs.set semgrepJson c) = resolveSast fs)
       ∧ (fs.exists sastCriticalTxt = false → fs.exists semgrepJson = true →
          resolveSast fs = parse_semgrep_results (fs.read semgrepJson))
       ∧ (fs.exists sastCriticalTxt = false → fs.exists semgrepJson = false →
          resolveSast fs = (0, 0)))
      ∧ ((fs.exists scaCriticalTxt = true →
          resolveSca fs
            = ⟨.num (read_count (fs.read scaCriticalTxt) 0),
               .num (read_count (fs.read scaHighTxt) 0),
               .num (read_count (fs.read scaMediumTxt) 0),
               .num (read_count (fs.read scaLowTxt) 0)⟩
          ∧ ∀ c, resolveSca (fs.set "sca-results/npm-audit-results.json" c) = resolveSca fs)
       ∧ (fs.exists scaCriticalTxt = false
          → fs.exists "sca-results/npm-audit-results.json" = true →
          resolveSca fs = parse_npm_audit_results (fs.read "sca-results/npm-audit-results.json"))
       ∧ (fs.exists scaCriticalTxt = false
          → fs.exists "sca-results/npm-audit-results.json" = false →
          resolveSca fs = ⟨.num 0, .num 0, .num 0, .num 0⟩))
      ∧ ((fs.exists dastCriticalTxt = true →
          resolveDast fs
            = ⟨read_count (fs.read dastCriticalTxt) 0, read_count (fs.read dastHighTxt) 0,
               read_count (fs.read dastMediumTxt) 0, read_count (fs.read dastLowTxt) 0⟩
          ∧ ∀ c, resolveDast (fs.set "dast-results/zap-report.json" c) = resolveDast fs)
       ∧ (fs.exists dastCriticalTxt = false
          → fs.exists "dast-results/zap-report.json" = true →
          resolveDast fs = parse_zap_results (fs.read "dast-results/zap-report.json"))
       ∧ (fs.exists dastCriticalTxt = false
          → fs.exists "dast-results/zap-report.json" = false →
          resolveDast fs = ⟨0, 0, 0, 0⟩)) := by
  intro fs
  refine ⟨⟨?_, ?_, ?_⟩, ⟨?_, ?_, ?_⟩, ⟨?_, ?_, ?_⟩⟩
  · intro h
    constructor
    · simp [resolveSast, h]
    · intro c
      have e1 : (fs.set semgrepJson c).read sastCriticalTxt = fs.read sastCriticalTxt :=
        FS.read_set_ne fs c (by decide)
      have e2 : (fs.set semgrepJson c).read sastHighTxt = fs.read sastHighTxt :=
        FS.read_set_ne fs c (by decide)
      have hex : (fs.set semgrepJson c).exists sastCriticalTxt = true := by
        unfold FS.exists at h ⊢
        rw [e1]
        exact h
      simp [resolveSast, hex, h, e1, e2]
  · intro h1 h2
    simp [resolveSast, h1, h2]
  · intro h1 h2
    simp [resolveSast, h1, h2]
  · intro h
    constructor
    · simp [resolveSca, h]
    · intro c
      have e1 : (fs.set "sca-results/npm-audit-results.json" c).read scaCriticalTxt
          = fs.read scaCriticalTxt := FS.read_set_ne fs c (by decide)
      have e2 : (fs.set "sca-results/npm-audit-results.json" c).read scaHighTxt
          = fs.read scaHighTxt := FS.read_set_ne fs c (by decide)
      have e3 : (fs.set "sca-results/npm-audit-results.json" c).read scaMediumTxt
          = fs.read scaMediumTxt := FS.read_set_ne fs c (by decide)
      have e4 : (fs.set "sca-results/npm-audit-results.json" c).read scaLowTxt
          = fs.read scaLowTxt := FS.read_set_ne fs c (by decide)
      have hex : (fs.set "sca-results/npm-audit-results.json" c).exists scaCriticalTxt = true := by
        unfold FS.exists at h ⊢
        rw [e1]
        exact h
      simp [resolveSca, hex, h, e1, e2, e3, e4]
  · intro h1 h2
    simp [resolveSca, h1, h2]
  · intro h1 h2
    simp [resolveSca, h1, h2]
  · intro h
    constructor
    · simp [resolveDast, h]
    · intro c
      have e1 : (fs.set "dast-results/zap-report.json" c).read dastCriticalTxt
          = fs.read dastCriticalTxt := FS.read_set_ne fs c (by decide)
      have e2 : (fs.set "dast-results/zap-report.json" c).read dastHighTxt
          = fs.read dastHighTxt := FS.read_set_ne fs c (by decide)
      have e3 : (fs.set "dast-results/zap-report.json" c).read dastMediumTxt
          = fs.read dastMediumTxt := FS.read_set_ne fs c (by decide)
      have e4 : (fs.set "dast-results/zap-report.json" c).read dastLowTxt
          = fs.read dastLowTxt := FS.read_set_ne fs c (by decide)
      have hex : (fs.set "dast-results/zap-report.json" c).exists dastCriticalTxt = true := by
        unfold FS.exists at h ⊢
        rw [e1]
        exact h
      simp [resolveDast, hex, h, e1, e2, e3, e4]
  · intro h1 h2
    simp [resolveDast, h1, h2]
  · intro h1 h2
    simp [resolveDast, h1, h2]

/-- Witness for C3 (amended) at the empty filesystem. -/
theorem resolution_amended_witness :
    resolveSast fsEmpty = (0, 0)
    ∧ resolveSca fsEmpty = ⟨.num 0, .num 0, .num 0, .num 0⟩
    ∧ resolveDast fsEmpty = ⟨0, 0, 0, 0⟩ :=
  ⟨(resolution_amended fsEmpty).1.2.2 rfl rfl,
   (resolution_amended fsEmpty).2.1.2.2 rfl rfl,
   (resolution_amended fsEmpty).2.2.2.2 rfl rfl⟩

/-- C4 counterexample: a well-formed npm audit report whose
`metadata.vulnerabilities.critical` is the non-integer string `"abc"` is
forwarded verbatim by the parser and makes line 156's addition raise
`TypeError`: the run aborts through the fatal handler (exit 1, no summary),
instead of logging a warning, substituting 0 and continuing. -/
theorem npm_nonint_aborts :
    runSummary fsNpmNonInt = none ∧ exitCode fsNpmNonInt = 1 := ⟨rfl, rfl⟩

/-- C4 amended: missing files and unparsable plain-text counts are replaced
by the default, malformed JSON (and missing report files) yield zero counts
from every parser, and the run aborts exactly when some raw SCA value
forwarded by the npm audit parser is not int-addable — so per-file errors
never abort *except* a non-integer npm vulnerabilities field. -/
theorem per_file_errors_amended :
    (∀ d : Int, read_count none d = d)
    ∧ (∀ (s : String) (d : Int), pyIntParse s = none → read_count (some (.text s)) d = d)
    ∧ (∀ s : String,
        parse_semgrep_results (some (.text s)) = (0, 0)
        ∧ parse_npm_audit_results (some (.text s)) = ⟨.num 0, .num 0, .num 0, .num 0⟩
        ∧ parse_zap_results (some (.text s)) = ⟨0, 0, 0, 0⟩)
    ∧ (parse_semgrep_results none = (0, 0)
        ∧ parse_npm_audit_results none = ⟨.num 0, .num 0, .num 0, .num 0⟩
        ∧ parse_zap_results none = ⟨0, 0, 0, 0⟩)
    ∧ (∀ fs : FS, (run fs).toOption.isSome = scaOk fs) := by
  refine ⟨fun d => rfl, ?_, fun s => ⟨rfl, rfl, rfl⟩, ⟨rfl, rfl, rfl⟩, ?_⟩
  · intro s d h
    unfold pyIntParse at h
    simp only [read_count, FileContent.asText]
    cases hsc : stripChars s.data with
    | nil => simp [hsc]
    | cons c t =>
      rw [hsc] at h
      simp [hsc, h]
  · intro fs
    unfold run scaOk
    rcases h1 : jsonAddable (resolveSca fs).critical with e1 | a1 <;>
      rcases h2 : jsonAddable (resolveSca fs).high with e2 | a2 <;>
        rcases h3 : jsonAddable (resolveSca fs).medium with e3 | a3 <;>
          rcases h4 : jsonAddable (resolveSca fs).low with e4 | a4 <;>
            simp [h1, h2, h3, h4, Except.toOption]

/-- Witness for C4 (amended) at concrete inputs. -/
theorem per_file_errors_amended_witness :
    read_count none 7 = 7
    ∧ read_count (some (.text "abc")) 3 = 3
    ∧ parse_zap_results (some (.text "oops")) = ⟨0, 0, 0, 0⟩
    ∧ (run fsEmpty).toOption.isSome = scaOk fsEmpty :=
  ⟨per_file_errors_amended.1 7,
   per_file_errors_amended.2.1 "abc" 3 rfl,
   (per_file_errors_amended.2.2.1 "oops").2.2,
   per_file_errors_amended.2.2.2.2 fsEmpty⟩

/-- C5: on a well-formed ZAP document the parser accumulates across all
sites and alerts, mapping risk code 3/2/1/0 (numeric or stringified) to
critical/high/medium/low and ignoring every other code (they reach no
bucket, as the reference counts only tally 3, 2, 1 and 0); on a file whose
content is not valid JSON, or a missing file, it returns all-zero counts. -/
theorem zap_parse_spec :
    (∀ (raw : String) (sitess : List (List Int)),
        parse_zap_results (some (.jsonDoc raw (zapDocNum sitess))) = riskCounts sitess
        ∧ parse_zap_results (some (.jsonDoc raw (zapDocStr sitess))) = riskCounts sitess)
    ∧ (∀ s : String, parse_zap_results (some (.text s)) = ⟨0, 0, 0, 0⟩)
    ∧ parse_zap_results none = ⟨0, 0, 0, 0⟩ :=
  ⟨fun raw sitess => ⟨parse_zap_results_num raw sitess, parse_zap_results_str raw sitess⟩,
   fun _ => rfl, rfl⟩

/-- C6: the exit status is always 0 or 1, and it is 0 exactly when the run
produced a summary whose gate passed; a failed gate or an uncaught fatal
error both exit 1. -/
theorem exit_code_spec :
    ∀ fs : FS,
      (exitCode fs = 0 ∨ exitCode fs = 1)
      ∧ (exitCode fs = 0 ↔ ∃ s : Summary, runSummary fs = some s ∧ s.passed = true) := by
  intro fs
  cases hrun : run fs with
  | error e =>
    have h0 : exitCode fs = 1 := by simp [exitCode, hrun]
    refine ⟨Or.inr h0, ?_, ?_⟩
    · intro h
      rw [h0] at h
      exact absurd h (by decide)
    · rintro ⟨s, hs, _⟩
      rw [runSummary, hrun] at hs
      exact absurd hs (by simp [Except.toOption])
  | ok s =>
    have hsum : runSummary fs = some s := by rw [runSummary, hrun]; rfl
    obtain ⟨a, b, c, d, _, _, _, _, hs⟩ := (runSummary_eq_some_iff fs s).mp hsum
    have hpass : s.passed = s.failures.isEmpty := by subst hs; rfl
    by_cases hf : s.failures.isEmpty = true
    · have he : exitCode fs = 0 := by simp [exitCode, hrun, hf]
      refine ⟨Or.inl he, ?_, fun _ => he⟩
      intro _
      exact ⟨s, hsum, by rw [hpass, hf]⟩
    · have he : exitCode fs = 1 := by simp [exitCode, hrun, hf]
      refine ⟨Or.inr he, ?_, ?_⟩
      · intro h
        rw [he] at h
        exact absurd h (by decide)
      · rintro ⟨t, ht, hp⟩
        rw [hsum] at ht
        have : t = s := (Option.some.inj ht).symm
        subst this
        rw [hpass] at hp
        exact absurd hp hf

/-- Witness for C6: the empty filesystem passes with exit code 0. -/
theorem exit_code_spec_witness : exitCode fsEmpty = 0 :=
  (exit_code_spec fsEmpty).2.mpr ⟨s0, rfl, rfl⟩

/-- C7: for every run that produces a summary, `failures` is exactly the
concatenation of one message per failing bucket in the fixed order
critical, high, medium, low; each message names the bucket and embeds the
observed total and the exceeded threshold. -/
theorem failures_order_spec :
    ∀ (fs : FS) (s : Summary), runSummary fs = some s →
      s.failures
        = (if s.total_critical > thresholds.critical then [criticalMsg s.total_critical] else [])
          ++ (if s.total_high > thresholds.high then [highMsg s.total_high] else [])
          ++ (if s.total_medium > thresholds.medium then [mediumMsg s.total_medium] else [])
          ++ (if s.total_low > thresholds.low then [lowMsg s.total_low] else []) := by
  intro fs s h
  obtain ⟨a, b, c, d, _, _, _, _, hs⟩ := (runSummary_eq_some_iff fs s).mp h
  subst hs
  exact computeFailures_eq _ _ _ _

/-- Witness for C7 at a run with two failing buckets (critical and high). -/
theorem failures_order_spec_witness :
    sDast12.failures
      = (if sDast12.total_critical > thresholds.critical
          then [criticalMsg sDast12.total_critical] else [])
        ++ (if sDast12.total_high > thresholds.high then [highMsg sDast12.total_high] else [])
        ++ (if sDast12.total_medium > thresholds.medium
            then [mediumMsg sDast12.total_medium] else [])
        ++ (if sDast12.total_low > thresholds.low then [lowMsg sDast12.total_low] else []) :=
  failures_order_spec fsDastTwoFailures sDast12 rfl

/-- C8 counterexample: with `sast-critical.txt` containing `-1`, the run
completes and the summary's SAST critical count is the negative integer
`-1` — `read_count` forwards negative plain-text values verbatim. -/
theorem negative_count_counterexample :
    (runSummary fsNegCount).map (fun s => s.sast.critical) = some (-1)
    ∧ ¬(0 : Int) ≤ (-1 : Int) := ⟨rfl, by decide⟩

/-- C8 amended: counts produced by the Semgrep and ZAP parsers are always
non-negative, and every total (and the grand total) is non-negative
whenever the per-category counts are — but plain-text count files and npm
audit fields are used verbatim, so a negative input yields a negative
count. -/
theorem nonneg_amended :
    (∀ c : Option FileContent,
        0 ≤ (parse_zap_results c).critical ∧ 0 ≤ (parse_zap_results c).high
        ∧ 0 ≤ (parse_zap_results c).medium ∧ 0 ≤ (parse_zap_results c).low)
    ∧ (∀ c : Option FileContent,
        0 ≤ (parse_semgrep_results c).1 ∧ 0 ≤ (parse_semgrep_results c).2)
    ∧ (∀ (fs : FS) (s : Summary), runSummary fs = some s →
        0 ≤ s.sast.critical → 0 ≤ s.sast.high
        → 0 ≤ s.sca.critical → 0 ≤ s.sca.high → 0 ≤ s.sca.medium → 0 ≤ s.sca.low
        → 0 ≤ s.dast.critical → 0 ≤ s.dast.high → 0 ≤ s.dast.medium → 0 ≤ s.dast.low
        → 0 ≤ s.total_critical ∧ 0 ≤ s.total_high ∧ 0 ≤ s.total_medium
          ∧ 0 ≤ s.total_low ∧ 0 ≤ s.total) := by
  refine ⟨parse_zap_results_nonneg, parse_semgrep_results_nonneg, ?_⟩
  intro fs s h
  obtain ⟨a, b, c, d, _, _, _, _, hs⟩ := (runSummary_eq_some_iff fs s).mp h
  subst hs
  intro p1 p2 p3 p4 p5 p6 p7 p8 p9 p10
  simp only [mkSummary] at p1 p2 p3 p4 p5 p6 p7 p8 p9 p10 ⊢
  refine ⟨by omega, by omega, by omega, by omega, by omega⟩

/-- Witness for C8 (amended) at concrete inputs. -/
theorem nonneg_amended_witness :
    0 ≤ (parse_zap_results none).critical
    ∧ (0 ≤ s0.total_critical ∧ 0 ≤ s0.total_high ∧ 0 ≤ s0.total_medium
        ∧ 0 ≤ s0.total_low ∧ 0 ≤ s0.total) :=
  ⟨(nonneg_amended.1 none).1,
   nonneg_amended.2.2 fsEmpty s0 rfl (by decide) (by decide) (by decide) (by decide)
     (by decide) (by decide) (by decide) (by decide) (by decide) (by decide)⟩

/-- C9: re-reading the serialized summary recovers exactly the four
per-severity totals, the overall total and the `passed` flag that the run
computed — serialization loses none of them. -/
theorem summary_roundtrip :
    ∀ (fs : FS) (s : Summary), runSummary fs = some s →
      decodeTotals (summaryToJson s)
        = some (s.total_critical, s.total_high, s.total_medium, s.total_low,
            s.total, s.passed) := by
  intro fs s _
  rfl

/-- Witness for C9 at the empty filesystem's run. -/
theorem summary_roundtrip_witness :
    decodeTotals (summaryToJson s0)
      = some (s0.total_critical, s0.total_high, s0.total_medium, s0.total_low,
          s0.total, s0.passed) :=
  summary_roundtrip fsEmpty s0 rfl

/-- C10: an alert with no `riskcode` field at all is counted as one
low-severity finding — `alert.get('riskcode', 0)` defaults to 0, which maps
to the low bucket — rather than being ignored. -/
theorem missing_riskcode_low :
    ∀ fields : List (String × Json), fields.lookup "riskcode" = none →
      parse_zap_results (some (.jsonDoc "" (mkZapDoc [mkZapSite [.obj fields]])))
        = ⟨0, 0, 0, 1⟩ := by
  intro fields h
  have hget : pyGet (.obj fields) "riskcode" (.num 0) = .ok (.num 0) := by
    simp [pyGet, h]
  have hstep : zapAlertStep ⟨0, 0, 0, 0⟩ (.obj fields) = .ok ⟨0, 0, 0, 1⟩ := by
    simp [zapAlertStep, hget, except_bind_ok, riskToInt]
  have hsite : zapSiteStep ⟨0, 0, 0, 0⟩ (mkZapSite [Json.obj fields]) = .ok ⟨0, 0, 0, 1⟩ := by
    have h1 : pyGet (mkZapSite [Json.obj fields]) "alerts" (.arr [])
        = .ok (.arr [Json.obj fields]) := rfl
    simp only [zapSiteStep, h1, except_bind_ok, List.foldlM_cons, hstep, List.foldlM_nil]
    rfl
  have hcore : parse_zap_core (mkZapDoc [mkZapSite [Json.obj fields]]) = .ok ⟨0, 0, 0, 1⟩ := by
    have h1 : pyGet (mkZapDoc [mkZapSite [Json.obj fields]]) "site" (.arr [])
        = .ok (.arr [mkZapSite [Json.obj fields]]) := rfl
    simp only [parse_zap_core, h1, except_bind_ok, List.foldlM_cons, hsite, List.foldlM_nil]
    rfl
  simp [parse_zap_results, FileContent.asJson, hcore]

/-- Witness for C10 at a concrete alert without a `riskcode` field. -/
theorem missing_riskcode_low_witness :
    parse_zap_results (some (.jsonDoc "" (mkZapDoc [mkZapSite [.obj [("name", Json.str "x")]]])))
      = ⟨0, 0, 0, 1⟩ :=
  missing_riskcode_low [("name", Json.str "x")] rfl
